import Mathlib

/-!
Verification of the map-expectation evaluation contract of the
great_expectations extension repository.

The development embeds, as executable Lean definitions:
  * the scalar value model of a tabular column (string, integer, boolean,
    null/missing), with Python's `len` as a fallible operation;
  * the zip-code condition `is_valid_colorado_zip` from
    `expect_column_values_to_be_valid_colorado_zip.py`, with the external
    reference set of Colorado codes injected as a parameter;
  * the generic column/multicolumn map-expectation evaluator described in the
    specification (the aggregation itself lives in the external framework, so
    it is modelled from the spec);
  * the `ignore_row_if` field default of
    `ExpectSelectColumnValuesToBeUniqueWithinRecord`;
  * the `response_status` validation of `ContractInteraction` from
    `tests/integration/cloud/rest_contracts/conftest.py`.
-/

namespace GX

/-- A scalar value of a tabular column: string, number, boolean, or
null/missing, per the data model of the spec (§3). -/
inductive Value where
  | str (s : String)
  | int (n : Int)
  | bool (b : Bool)
  | null
deriving DecidableEq, Repr

/-- A Python runtime error raised by a condition function. -/
inductive PyErr where
  | typeError
deriving DecidableEq, Repr

/-- `null` is the missing value. -/
def Value.isMissing : Value → Bool
  | Value.null => true
  | _ => false

/-- Python `len` on a scalar value: defined for strings, raises `TypeError`
(returns `none`) for every other scalar. -/
def pyLen : Value → Option Nat
  | Value.str s => some s.length
  | _ => none

/-- Embedding of `is_valid_colorado_zip` (expect_column_values_to_be_valid_colorado_zip.py,
lines 11-19).  The reference set obtained from `zipcodes.filter_by(state="CO")`
is injected as the parameter `coZips` (spec §6 treats it as an injected
set-membership oracle).  The Python body evaluates `len(zip) > 10` before the
`type(zip) != str` test, so a value on which `len` raises propagates a
`TypeError`; a string longer than 10, or a sized non-string, yields `False`;
a string of length at most 10 yields its membership verdict. -/
def is_valid_colorado_zip (coZips : List String) (zip : Value) : Except PyErr Bool :=
  match pyLen zip with
  | none => Except.error PyErr.typeError
  | some n =>
    if n > 10 then Except.ok false
    else
      match zip with
      | Value.str s => Except.ok (decide (s ∈ coZips))
      | _ => Except.ok false

/-- The `ignore_row_if` policy of multicolumn map expectations. -/
inductive IgnoreRowIf where
  | all_values_are_missing
  | any_value_is_missing
  | never
deriving DecidableEq, Repr

/-- Modelled from the spec (§4.1 step 2): whether a record (the tuple of the
listed columns' values at one row) is excluded from evaluation under the
given `ignore_row_if` policy. -/
def excludeRow (policy : IgnoreRowIf) (record : List Value) : Bool :=
  match policy with
  | IgnoreRowIf.any_value_is_missing => record.any Value.isMissing
  | IgnoreRowIf.all_values_are_missing => record.all Value.isMissing
  | IgnoreRowIf.never => false

/-- Modelled from the spec (§3): the read-only summary produced by one
evaluation.  `unexpected_list` is the spec's bounded first-occurrence sample
of failing values/records (the "partial unexpected list"). -/
structure MapExpectationResult (α : Type) where
  element_count : Nat
  missing_count : Nat
  unexpected_count : Nat
  unexpected_percent : ℚ
  unexpected_percent_nonmissing : ℚ
  unexpected_list : List α
  success : Bool
deriving DecidableEq, Repr

/-- Errors of one evaluation: a configuration error (fail-fast, before any row
is evaluated) or a propagated condition fault. -/
inductive EvalError where
  | configError
  | conditionFault (e : PyErr)
deriving DecidableEq, Repr

instance {ε α : Type} [DecidableEq ε] [DecidableEq α] : DecidableEq (Except ε α) := fun a b =>
  match a, b with
  | Except.error e1, Except.error e2 =>
    if h : e1 = e2 then Decidable.isTrue (by rw [h])
    else Decidable.isFalse (fun hh => h (Except.error.inj hh))
  | Except.ok v1, Except.ok v2 =>
    if h : v1 = v2 then Decidable.isTrue (by rw [h])
    else Decidable.isFalse (fun hh => h (Except.ok.inj hh))
  | Except.error _, Except.ok _ => Decidable.isFalse (fun hh => Except.noConfusion hh)
  | Except.ok _, Except.error _ => Decidable.isFalse (fun hh => Except.noConfusion hh)

/-- First fault raised by the condition along a list of evaluated rows, if
any (spec §7: a condition fault is not masked; it propagates). -/
def firstFault (cond : α → Except PyErr Bool) : List α → Option PyErr
  | [] => none
  | x :: xs =>
    match cond x with
    | Except.error e => some e
    | Except.ok _ => firstFault cond xs

/-- The condition evaluates (does not raise) and is false on `x`. -/
def condFails (cond : α → Except PyErr Bool) (x : α) : Bool :=
  match cond x with
  | Except.ok b => !b
  | Except.error _ => false

/-- Modelled from the spec (§4.1 steps 2-6): the single-pass aggregation of a
map expectation over a list of rows.  `excluded` is the missingness policy
already specialised to the row type; `cond` is the per-row condition;
`mostly` is the success threshold.  A condition fault on a non-excluded row
propagates; otherwise the complete result is produced, with
`unexpected_percent = unexpected_count / element_count * 100`,
`unexpected_percent_nonmissing = unexpected_count / (element_count - missing_count) * 100`
(each `0` when its denominator is `0`), a sample of at most 20 failing rows in
encounter order, and
`success = (unexpected_percent_nonmissing ≤ (1 - mostly) * 100)`. -/
def evaluateCore (excluded : α → Bool) (cond : α → Except PyErr Bool) (mostly : ℚ)
    (rows : List α) : Except EvalError (MapExpectationResult α) :=
  let evaluated := rows.filter (fun x => !excluded x)
  match firstFault cond evaluated with
  | some e => Except.error (EvalError.conditionFault e)
  | none =>
    let ec := rows.length
    let mc := rows.countP excluded
    let uc := evaluated.countP (condFails cond)
    let upct : ℚ := if ec = 0 then 0 else (uc : ℚ) / (ec : ℚ) * 100
    let upnm : ℚ := if ec - mc = 0 then 0 else (uc : ℚ) / ((ec - mc : Nat) : ℚ) * 100
    Except.ok
      { element_count := ec
        missing_count := mc
        unexpected_count := uc
        unexpected_percent := upct
        unexpected_percent_nonmissing := upnm
        unexpected_list := (evaluated.filter (condFails cond)).take 20
        success := decide (upnm ≤ (1 - mostly) * 100) }

/-- Modelled from the spec (§4.1): a column-map expectation evaluates a single
column, a row being missing exactly when its value is null. -/
def evaluateColumn (cond : Value → Except PyErr Bool) (mostly : ℚ) (col : List Value) :
    Except EvalError (MapExpectationResult Value) :=
  evaluateCore Value.isMissing cond mostly col

/-- Row count of a multicolumn input: the length of its first column. -/
def rowCount : List (List Value) → Nat
  | [] => 0
  | c :: _ => c.length

/-- All columns have the length of the first column. -/
def allEqualLengths : List (List Value) → Bool
  | [] => true
  | c :: rest => rest.all (fun c2 => c2.length == c.length)

/-- The record at row `i`: the tuple of the columns' values at index `i`. -/
def recordAt (columns : List (List Value)) (i : Nat) : List Value :=
  columns.map (fun c => c.getD i Value.null)

/-- The rows of a multicolumn input, as records. -/
def toRecords (columns : List (List Value)) : List (List Value) :=
  (List.range (rowCount columns)).map (recordAt columns)

/-- Modelled from the spec (§4.1 step 1): a multicolumn-map expectation first
validates that all columns have equal length, failing fast with a
configuration error otherwise, then aggregates over the records. -/
def evaluateMulticolumn (cond : List Value → Except PyErr Bool) (policy : IgnoreRowIf)
    (mostly : ℚ) (columns : List (List Value)) :
    Except EvalError (MapExpectationResult (List Value)) :=
  if allEqualLengths columns then
    evaluateCore (excludeRow policy) cond mostly (toRecords columns)
  else Except.error EvalError.configError

/-- Modelled from the spec (§4.1 step 3): the uniqueness-within-record
condition of `expect_select_column_values_to_be_unique_within_record.py`
(whose metric implementation lives in the external framework): true iff the
record's values contain no duplicate value. -/
def uniqueWithinRecord : List Value → Bool
  | [] => true
  | v :: rest => !(decide (v ∈ rest)) && uniqueWithinRecord rest

/-- The uniqueness condition as a (never-raising) condition function. -/
def uniqueCond (record : List Value) : Except PyErr Bool :=
  Except.ok (uniqueWithinRecord record)

/-- Embedding of the class fields of
`ExpectSelectColumnValuesToBeUniqueWithinRecord`
(expect_select_column_values_to_be_unique_within_record.py, lines 150-151):
`column_list` is required, `ignore_row_if` defaults to
`"all_values_are_missing"`. -/
structure ExpectSelectColumnValuesToBeUniqueWithinRecord where
  column_list : List String
  ignore_row_if : IgnoreRowIf := IgnoreRowIf.all_values_are_missing

/-- The default the class's own docstring documents for `ignore_row_if`
(line 47: `Default "never"`). -/
def docstringDefaultIgnoreRowIf : IgnoreRowIf := IgnoreRowIf.never

/-- JSON data, as in the `JsonData` type alias of
`tests/integration/cloud/rest_contracts/conftest.py` (a Pact matcher in a
body is abstracted away as plain JSON). -/
inductive Json where
  | null
  | bool (b : Bool)
  | num (n : Int)
  | str (s : String)
  | arr (xs : List Json)
  | obj (fields : List (String × Json))

/-- Embedding of the `ContractInteraction` pydantic model (conftest.py,
lines 59-90): `method` and the descriptive strings are kept as strings, the
request path as its string form. -/
structure ContractInteraction where
  method : String
  request_path : String
  upon_receiving : String
  given : String
  response_status : Int
  response_body : Json
  request_body : Option Json
  request_headers : Option (List (String × String))

/-- Pydantic validation of a `ContractInteraction` at construction time:
`response_status` is declared `Field(strict=True, ge=100, lt=600)` (line 87),
so construction succeeds exactly when `100 ≤ response_status < 600` and is
otherwise rejected with a validation error, producing no model instance. -/
def mkContractInteraction (method request_path upon_receiving given : String)
    (response_status : Int) (response_body : Json)
    (request_body : Option Json) (request_headers : Option (List (String × String))) :
    Except String ContractInteraction :=
  if 100 ≤ response_status ∧ response_status < 600 then
    Except.ok
      { method := method
        request_path := request_path
        upon_receiving := upon_receiving
        given := given
        response_status := response_status
        response_body := response_body
        request_body := request_body
        request_headers := request_headers }
  else Except.error "validation error: response_status out of range"

/-- The `valid_colorado_zip` example column of
`ExpectColumnValuesToBeValidColoradoZip.examples` (lines 53-76). -/
def validColoradoColumn : List Value :=
  [Value.str "80001", Value.str "80279", Value.str "81003", Value.str "81658"]

/-- The `invalid_colorado_zip` example column of the same examples block. -/
def invalidColoradoColumn : List Value :=
  [Value.str "-10000", Value.str "1234", Value.str "99999", Value.str "25487"]

/-- The three equal-length columns of the spec's Scenario 3. -/
def scenario3Columns : List (List Value) :=
  [[Value.str "1", Value.str "1", Value.str "8", Value.str "1", Value.str "4"],
   [Value.str "1", Value.str "2", Value.str "2", Value.str "2", Value.str "4"],
   [Value.str "2", Value.str "3", Value.str "7", Value.str "3", Value.str "4"]]

/-! ## Helper lemmas -/

/-- The excluded and the evaluated rows partition the input. -/
theorem countP_add_filter_not_length (excluded : α → Bool) (rows : List α) :
    rows.countP excluded + (rows.filter (fun x => !excluded x)).length = rows.length := by
  induction rows with
  | nil => rfl
  | cons x xs ih =>
    cases hx : excluded x <;>
      simp [List.countP_cons, List.filter_cons, hx] <;> omega

/-- Field characterisation of a successful `evaluateCore` run. -/
theorem evaluateCore_ok_fields {α : Type} (excluded : α → Bool)
    (cond : α → Except PyErr Bool) (mostly : ℚ) (rows : List α)
    (r : MapExpectationResult α)
    (hok : evaluateCore excluded cond mostly rows = Except.ok r) :
    r.element_count = rows.length
    ∧ r.missing_count = rows.countP excluded
    ∧ r.unexpected_count = (rows.filter (fun x => !excluded x)).countP (condFails cond)
    ∧ r.unexpected_percent_nonmissing =
        (if rows.length - rows.countP excluded = 0 then (0 : ℚ) else
          (r.unexpected_count : ℚ) / ((rows.length - rows.countP excluded : Nat) : ℚ) * 100)
    ∧ r.success = decide (r.unexpected_percent_nonmissing ≤ (1 - mostly) * 100) := by
  simp only [evaluateCore] at hok
  cases hf : firstFault cond (rows.filter (fun x => !excluded x)) with
  | some e =>
    rw [hf] at hok
    exact absurd hok (by simp)
  | none =>
    rw [hf] at hok
    simp only [Except.ok.injEq] at hok
    subst hok
    exact ⟨rfl, rfl, rfl, rfl, rfl⟩

/-- The success inequality on percentages is the same as the count form. -/
theorem success_iff_count_le (mostly : ℚ) (uc nm : Nat) (h1 : mostly ≤ 1) (huc : uc ≤ nm) :
    ((if nm = 0 then (0 : ℚ) else (uc : ℚ) / (nm : ℚ) * 100) ≤ (1 - mostly) * 100)
      ↔ ((uc : ℚ) ≤ (1 - mostly) * (nm : ℚ)) := by
  rcases Nat.eq_zero_or_pos nm with h | h
  · have huc0 : uc = 0 := Nat.le_zero.mp (h ▸ huc)
    subst h
    subst huc0
    have hL : (0 : ℚ) ≤ (1 - mostly) * 100 :=
      mul_nonneg (by linarith) (by norm_num)
    simp [hL]
  · have hnm0 : nm ≠ 0 := Nat.pos_iff_ne_zero.mp h
    have hnmQ : (0 : ℚ) < (nm : ℚ) := by exact_mod_cast h
    rw [if_neg hnm0, mul_le_mul_right (by norm_num : (0 : ℚ) < 100), div_le_iff₀ hnmQ]

/-! ## Theorems -/

/-- C5: for every result a successful evaluation produces, `element_count`
equals `missing_count` plus the number of non-missing rows evaluated,
`unexpected_count ≤ element_count - missing_count`, and hence
`missing_count + unexpected_count ≤ element_count`. -/
theorem evaluator_count_invariants {α : Type} (excluded : α → Bool)
    (cond : α → Except PyErr Bool) (mostly : ℚ) (rows : List α)
    (r : MapExpectationResult α)
    (hok : evaluateCore excluded cond mostly rows = Except.ok r) :
    r.element_count = r.missing_count + (rows.filter (fun x => !excluded x)).length
    ∧ r.unexpected_count ≤ r.element_count - r.missing_count
    ∧ r.missing_count + r.unexpected_count ≤ r.element_count := by
  obtain ⟨hec, hmc, huc, _, _⟩ := evaluateCore_ok_fields excluded cond mostly rows r hok
  have hpart := countP_add_filter_not_length excluded rows
  have hle : (rows.filter (fun x => !excluded x)).countP (condFails cond)
      ≤ (rows.filter (fun x => !excluded x)).length := List.countP_le_length _
  refine ⟨?_, ?_, ?_⟩ <;> omega

/-- C5 witness: the invariants evaluated on a one-row input. -/
theorem evaluator_count_invariants_witness :
    (1 : Nat) = 0 + ([[Value.str "1"]].filter
        (fun x => !excludeRow IgnoreRowIf.never x)).length
    ∧ (0 : Nat) ≤ 1 - 0 ∧ (0 : Nat) + 0 ≤ 1 :=
  evaluator_count_invariants (excludeRow IgnoreRowIf.never) uniqueCond 1
    [[Value.str "1"]] ⟨1, 0, 0, 0, 0, [], true⟩ (by
      simp [evaluateCore, firstFault, uniqueCond, uniqueWithinRecord, condFails, excludeRow,
        List.filter, List.countP, List.countP.go])

/-- C2: for every successful evaluation with a valid configuration
(`0 ≤ mostly ≤ 1`), success holds iff
`unexpected_percent_nonmissing ≤ (1 - mostly) * 100`, equivalently iff
`unexpected_count ≤ (1 - mostly) * (element_count - missing_count)` (equality
at the threshold counts as success); `mostly = 1` makes success equivalent to
`unexpected_count = 0`, and `mostly = 0` always gives success. -/
theorem evaluator_success_threshold {α : Type} (excluded : α → Bool)
    (cond : α → Except PyErr Bool) (mostly : ℚ) (rows : List α)
    (r : MapExpectationResult α) (h0 : 0 ≤ mostly) (h1 : mostly ≤ 1)
    (hok : evaluateCore excluded cond mostly rows = Except.ok r) :
    (r.success = true ↔ r.unexpected_percent_nonmissing ≤ (1 - mostly) * 100)
    ∧ (r.success = true ↔
        (r.unexpected_count : ℚ) ≤ (1 - mostly) * ((r.element_count - r.missing_count : Nat) : ℚ))
    ∧ (mostly = 1 → (r.success = true ↔ r.unexpected_count = 0))
    ∧ (mostly = 0 → r.success = true) := by
  obtain ⟨hec, hmc, huc, hpnm, hsucc⟩ := evaluateCore_ok_fields excluded cond mostly rows r hok
  have hpart := countP_add_filter_not_length excluded rows
  have hle : (rows.filter (fun x => !excluded x)).countP (condFails cond)
      ≤ (rows.filter (fun x => !excluded x)).length := List.countP_le_length _
  have hucle : r.unexpected_count ≤ r.element_count - r.missing_count := by omega
  rw [← hec, ← hmc] at hpnm
  have hconj1 : r.success = true ↔ r.unexpected_percent_nonmissing ≤ (1 - mostly) * 100 := by
    rw [hsucc]
    exact ⟨of_decide_eq_true, decide_eq_true⟩
  have hkey : (r.unexpected_percent_nonmissing ≤ (1 - mostly) * 100)
      ↔ ((r.unexpected_count : ℚ) ≤
          (1 - mostly) * ((r.element_count - r.missing_count : Nat) : ℚ)) := by
    rw [hpnm]
    exact success_iff_count_le mostly r.unexpected_count
      (r.element_count - r.missing_count) h1 hucle
  have hconj2 := hconj1.trans hkey
  refine ⟨hconj1, hconj2, ?_, ?_⟩
  · intro hm
    subst hm
    rw [hconj2]
    constructor
    · intro hs
      have h40 : (r.unexpected_count : ℚ) ≤ 0 := by
        calc (r.unexpected_count : ℚ)
            ≤ (1 - 1) * ((r.element_count - r.missing_count : Nat) : ℚ) := hs
          _ = 0 := by ring
      exact_mod_cast le_antisymm h40 (Nat.cast_nonneg _)
    · intro h0'
      rw [h0']
      simp
  · intro hm
    subst hm
    rw [hconj2]
    calc ((r.unexpected_count : Nat) : ℚ)
        ≤ ((r.element_count - r.missing_count : Nat) : ℚ) := by exact_mod_cast hucle
      _ = (1 - 0) * ((r.element_count - r.missing_count : Nat) : ℚ) := by ring

/-- C2 witness: the threshold statement evaluated at `mostly = 0` on a
one-row input, whose evaluation succeeds. -/
theorem evaluator_success_threshold_witness :
    (⟨1, 0, 0, 0, 0, [], true⟩ : MapExpectationResult (List Value)).success = true := by
  have h := evaluator_success_threshold (excludeRow IgnoreRowIf.never) uniqueCond 0
    [[Value.str "1"]] ⟨1, 0, 0, 0, 0, [], true⟩ le_rfl (by norm_num) (by
      simp [evaluateCore, firstFault, uniqueCond, uniqueWithinRecord, condFails, excludeRow,
        List.filter, List.countP, List.countP.go])
  exact h.2.2.2 rfl

/-- C6: row exclusion is governed solely by the `ignore_row_if` policy:
`any_value_is_missing` excludes exactly the rows where some listed column is
null, `all_values_are_missing` excludes exactly the rows where every listed
column is null, `never` excludes no row (even an all-missing one), and the
evaluator's `missing_count` counts exactly the rows the policy excludes. -/
theorem ignore_row_if_policy_exclusion (record : List Value) :
    (excludeRow IgnoreRowIf.any_value_is_missing record = true
      ↔ ∃ v ∈ record, v.isMissing = true)
    ∧ (excludeRow IgnoreRowIf.all_values_are_missing record = true
      ↔ ∀ v ∈ record, v.isMissing = true)
    ∧ excludeRow IgnoreRowIf.never record = false
    ∧ ∀ (cond : List Value → Except PyErr Bool) (mostly : ℚ) (policy : IgnoreRowIf)
        (rows : List (List Value)) (r : MapExpectationResult (List Value)),
        evaluateCore (excludeRow policy) cond mostly rows = Except.ok r →
        r.missing_count = rows.countP (excludeRow policy) := by
  refine ⟨?_, ?_, rfl, ?_⟩
  · simp [excludeRow, List.any_eq_true]
  · simp [excludeRow, List.all_eq_true]
  · intro cond mostly policy rows r hok
    exact (evaluateCore_ok_fields (excludeRow policy) cond mostly rows r hok).2.1

/-- C6 witness: on a one-row input whose only record is all-missing, the
`any_value_is_missing` policy excludes the row and `missing_count` is 1. -/
theorem ignore_row_if_policy_exclusion_witness :
    (⟨1, 1, 0, 0, 0, [], true⟩ : MapExpectationResult (List Value)).missing_count
      = [[Value.null]].countP (excludeRow IgnoreRowIf.any_value_is_missing) :=
  (ignore_row_if_policy_exclusion []).2.2.2 uniqueCond 1
    IgnoreRowIf.any_value_is_missing [[Value.null]] ⟨1, 1, 0, 0, 0, [], true⟩ (by
      simp [evaluateCore, firstFault, uniqueCond, uniqueWithinRecord, condFails, excludeRow,
        Value.isMissing, List.filter, List.countP, List.countP.go])

/-- `allEqualLengths` holds exactly when every column has the row count. -/
theorem allEqualLengths_iff (columns : List (List Value)) :
    allEqualLengths columns = true ↔ ∀ c ∈ columns, c.length = rowCount columns := by
  cases columns with
  | nil => simp [allEqualLengths]
  | cons c rest =>
    simp [allEqualLengths, rowCount, List.all_eq_true]

/-- C7: on a multicolumn input whose columns do not all have equal length,
the evaluator raises a configuration error before any row is evaluated (the
outcome does not depend on the condition, the policy or the threshold); and
in every case the evaluator either returns a complete result or raises,
never a partial result. -/
theorem multicolumn_mismatched_lengths_fail_fast
    (cond cond2 : List Value → Except PyErr Bool) (policy policy2 : IgnoreRowIf)
    (mostly mostly2 : ℚ) (columns : List (List Value))
    (hne : ∃ c1 ∈ columns, ∃ c2 ∈ columns, c1.length ≠ c2.length) :
    evaluateMulticolumn cond policy mostly columns = Except.error EvalError.configError
    ∧ evaluateMulticolumn cond policy mostly columns
        = evaluateMulticolumn cond2 policy2 mostly2 columns
    ∧ ∀ (cnd : List Value → Except PyErr Bool) (pol : IgnoreRowIf) (m : ℚ)
        (cols : List (List Value)),
        (∃ res, evaluateMulticolumn cnd pol m cols = Except.ok res)
        ∨ (∃ e, evaluateMulticolumn cnd pol m cols = Except.error e) := by
  obtain ⟨c1, hc1, c2, hc2, hcne⟩ := hne
  have hfalse : allEqualLengths columns = false := by
    cases hall : allEqualLengths columns with
    | false => rfl
    | true =>
      have ha := (allEqualLengths_iff columns).mp hall c1 hc1
      have hb := (allEqualLengths_iff columns).mp hall c2 hc2
      exact absurd (ha.trans hb.symm) hcne
  have he : ∀ (cnd : List Value → Except PyErr Bool) (pol : IgnoreRowIf) (m : ℚ),
      evaluateMulticolumn cnd pol m columns = Except.error EvalError.configError := by
    intro cnd pol m
    simp [evaluateMulticolumn, hfalse]
  refine ⟨he cond policy mostly, ?_, ?_⟩
  · rw [he cond policy mostly, he cond2 policy2 mostly2]
  · intro cnd pol m cols
    cases hev : evaluateMulticolumn cnd pol m cols with
    | ok res => exact Or.inl ⟨res, rfl⟩
    | error e => exact Or.inr ⟨e, rfl⟩

/-- C7 witness: the statement evaluated at columns of lengths 1 and 0. -/
theorem multicolumn_mismatched_lengths_fail_fast_witness :
    evaluateMulticolumn uniqueCond IgnoreRowIf.never 1 [[Value.null], []]
      = Except.error EvalError.configError :=
  (multicolumn_mismatched_lengths_fail_fast uniqueCond uniqueCond IgnoreRowIf.never
    IgnoreRowIf.never 1 1 [[Value.null], []]
    ⟨[Value.null], by simp, [], by simp, by simp⟩).1

/-- C8: the evaluation is deterministic and side-effect-free.  Both the
evaluator and the zip-code condition are embedded as pure functions, so two
evaluations of the same immutable input with the same parameters yield
identical results. -/
theorem evaluator_deterministic (coZips : List String) (v : Value)
    (cond : List Value → Except PyErr Bool) (ccond : Value → Except PyErr Bool)
    (policy : IgnoreRowIf) (mostly : ℚ) (col : List Value)
    (columns : List (List Value)) :
    evaluateMulticolumn cond policy mostly columns
      = evaluateMulticolumn cond policy mostly columns
    ∧ evaluateColumn ccond mostly col = evaluateColumn ccond mostly col
    ∧ is_valid_colorado_zip coZips v = is_valid_colorado_zip coZips v :=
  ⟨rfl, rfl, rfl⟩

/-- C1 counterexample: the zip-code condition is not total over arbitrary
scalar inputs.  On the non-string scalar `5`, the Python body evaluates
`len(zip) > 10` before checking `type(zip) != str`, so `len` raises a
`TypeError` instead of the function returning `false`. -/
theorem is_valid_colorado_zip_raises_on_int :
    is_valid_colorado_zip [] (Value.int 5) = Except.error PyErr.typeError := rfl

/-- C1 (amended): over string inputs the condition is total, returning the
membership verdict in the injected Colorado reference set when the length is
at most 10 and `false` when the length exceeds 10; on every non-string scalar
input it raises a `TypeError` (because `len(zip) > 10` is evaluated before the
type check) rather than returning `false`. -/
theorem is_valid_colorado_zip_amended (coZips : List String) (v : Value) :
    (∀ s : String, v = Value.str s → s.length ≤ 10 →
        is_valid_colorado_zip coZips v = Except.ok (decide (s ∈ coZips)))
    ∧ (∀ s : String, v = Value.str s → 10 < s.length →
        is_valid_colorado_zip coZips v = Except.ok false)
    ∧ ((∀ s : String, v ≠ Value.str s) →
        is_valid_colorado_zip coZips v = Except.error PyErr.typeError) := by
  refine ⟨?_, ?_, ?_⟩
  · intro s hv hlen
    subst hv
    simp [is_valid_colorado_zip, pyLen, Nat.not_lt.mpr hlen]
  · intro s hv hlen
    subst hv
    simp [is_valid_colorado_zip, pyLen, hlen]
  · intro hns
    cases v with
    | str s => exact absurd rfl (hns s)
    | int n => rfl
    | bool b => rfl
    | null => rfl

/-- C1 witness: the amended statement evaluated at a string in the reference
set and at an integer scalar. -/
theorem is_valid_colorado_zip_amended_witness :
    is_valid_colorado_zip ["80001"] (Value.str "80001") = Except.ok true
    ∧ is_valid_colorado_zip ["80001"] (Value.int 3) = Except.error PyErr.typeError := by
  constructor
  · have h := (is_valid_colorado_zip_amended ["80001"] (Value.str "80001")).1 "80001" rfl
      (by decide)
    simpa using h
  · exact (is_valid_colorado_zip_amended ["80001"] (Value.int 3)).2.2
      (fun s h => Value.noConfusion h)

/-- C9: a configuration constructed without an explicit `ignore_row_if`
gets the class field default `all_values_are_missing`, which differs from the
`"never"` default documented in the class's own docstring. -/
theorem default_ignore_row_if_contradicts_docstring (l : List String) :
    ({ column_list := l } : ExpectSelectColumnValuesToBeUniqueWithinRecord).ignore_row_if
      = IgnoreRowIf.all_values_are_missing
    ∧ docstringDefaultIgnoreRowIf = IgnoreRowIf.never
    ∧ ({ column_list := l } : ExpectSelectColumnValuesToBeUniqueWithinRecord).ignore_row_if
      ≠ docstringDefaultIgnoreRowIf := by
  refine ⟨rfl, rfl, ?_⟩
  intro h
  exact IgnoreRowIf.noConfusion h

/-- C9 witness: the statement evaluated at a concrete column list. -/
theorem default_ignore_row_if_contradicts_docstring_witness :
    ({ column_list := ["test", "test3"] } :
      ExpectSelectColumnValuesToBeUniqueWithinRecord).ignore_row_if
      = IgnoreRowIf.all_values_are_missing :=
  (default_ignore_row_if_contradicts_docstring ["test", "test3"]).1

/-- C10: constructing a `ContractInteraction` succeeds exactly when
`100 ≤ response_status < 600`; in the successful case the constructed model
carries the given status, and any integer outside the range is rejected with
a validation error, producing no model instance. -/
theorem contract_interaction_response_status_validation
    (method request_path upon_receiving given : String) (response_status : Int)
    (response_body : Json) (request_body : Option Json)
    (request_headers : Option (List (String × String))) :
    ((∃ ci, mkContractInteraction method request_path upon_receiving given
        response_status response_body request_body request_headers = Except.ok ci)
      ↔ (100 ≤ response_status ∧ response_status < 600))
    ∧ ((100 ≤ response_status ∧ response_status < 600) →
        mkContractInteraction method request_path upon_receiving given
          response_status response_body request_body request_headers =
        Except.ok
          { method := method
            request_path := request_path
            upon_receiving := upon_receiving
            given := given
            response_status := response_status
            response_body := response_body
            request_body := request_body
            request_headers := request_headers })
    ∧ (¬(100 ≤ response_status ∧ response_status < 600) →
        mkContractInteraction method request_path upon_receiving given
          response_status response_body request_body request_headers =
        Except.error "validation error: response_status out of range") := by
  unfold mkContractInteraction
  by_cases h : 100 ≤ response_status ∧ response_status < 600
  · refine ⟨?_, ?_, ?_⟩
    · simp [h]
    · intro _
      simp [h]
    · intro hc
      exact absurd h hc
  · refine ⟨?_, ?_, ?_⟩
    · simp [h]
    · intro hc
      exact absurd hc h
    · intro _
      simp [h]

/-- C10 witness: the statement evaluated at status `200` (accepted) and at
status `600` (rejected). -/
theorem contract_interaction_response_status_validation_witness :
    mkContractInteraction "GET" "/organizations" "a request" "a state" 200 Json.null
      none none =
      Except.ok
        { method := "GET"
          request_path := "/organizations"
          upon_receiving := "a request"
          given := "a state"
          response_status := 200
          response_body := Json.null
          request_body := none
          request_headers := none }
    ∧ mkContractInteraction "GET" "/organizations" "a request" "a state" 600 Json.null
      none none = Except.error "validation error: response_status out of range" := by
  constructor
  · exact (contract_interaction_response_status_validation "GET" "/organizations"
      "a request" "a state" 200 Json.null none none).2.1 (by decide)
  · exact (contract_interaction_response_status_validation "GET" "/organizations"
      "a request" "a state" 600 Json.null none none).2.2 (by decide)

/-- Conditions that agree on a list give the same first fault. -/
theorem firstFault_congr (cond cond2 : α → Except PyErr Bool) (l : List α)
    (h : ∀ x ∈ l, cond x = cond2 x) : firstFault cond l = firstFault cond2 l := by
  induction l with
  | nil => rfl
  | cons x xs ih =>
    simp only [firstFault]
    rw [h x (List.mem_cons_self x xs)]
    cases hc2 : cond2 x with
    | error e => rfl
    | ok b => exact ih (fun y hy => h y (List.mem_cons_of_mem x hy))

/-- Conditions that agree on the evaluated rows give the same evaluation. -/
theorem evaluateCore_congr (excluded : α → Bool) (cond cond2 : α → Except PyErr Bool)
    (mostly : ℚ) (rows : List α) (h : ∀ x ∈ rows, cond x = cond2 x) :
    evaluateCore excluded cond mostly rows = evaluateCore excluded cond2 mostly rows := by
  have hev : ∀ x ∈ rows.filter (fun x => !excluded x), cond x = cond2 x :=
    fun x hx => h x (List.mem_of_mem_filter hx)
  have hcf : ∀ x ∈ rows.filter (fun x => !excluded x),
      condFails cond x = condFails cond2 x := by
    intro x hx
    simp [condFails, hev x hx]
  simp only [evaluateCore]
  rw [firstFault_congr cond cond2 _ hev]
  cases hff : firstFault cond2 (rows.filter (fun x => !excluded x)) with
  | some e => rfl
  | none =>
    have h1 : (rows.filter (fun x => !excluded x)).countP (condFails cond)
        = (rows.filter (fun x => !excluded x)).countP (condFails cond2) :=
      List.countP_congr (fun x hx => by rw [hcf x hx])
    have h2 : (rows.filter (fun x => !excluded x)).filter (condFails cond)
        = (rows.filter (fun x => !excluded x)).filter (condFails cond2) :=
      List.filter_congr (fun x hx => hcf x hx)
    simp only [h1, h2]

/-- C3: the uniqueness-within-record condition is true for a row iff the
record's values, restricted to the column list, contain no duplicate; on the
spec's Scenario 3 columns with `mostly = 1`, exactly rows 0 and 4 fail,
giving `unexpected_count = 2`, `element_count = 5` and `success = false`. -/
theorem scenario3_unique_within_record :
    (∀ record : List Value, uniqueWithinRecord record = true ↔ record.Nodup)
    ∧ uniqueWithinRecord (recordAt scenario3Columns 0) = false
    ∧ uniqueWithinRecord (recordAt scenario3Columns 1) = true
    ∧ uniqueWithinRecord (recordAt scenario3Columns 2) = true
    ∧ uniqueWithinRecord (recordAt scenario3Columns 3) = true
    ∧ uniqueWithinRecord (recordAt scenario3Columns 4) = false
    ∧ evaluateMulticolumn uniqueCond IgnoreRowIf.all_values_are_missing 1 scenario3Columns
      = Except.ok
          { element_count := 5
            missing_count := 0
            unexpected_count := 2
            unexpected_percent := 40
            unexpected_percent_nonmissing := 40
            unexpected_list := [[Value.str "1", Value.str "1", Value.str "2"],
                                [Value.str "4", Value.str "4", Value.str "4"]]
            success := false } := by
  refine ⟨?_, by decide, by decide, by decide, by decide, by decide, ?_⟩
  · intro record
    induction record with
    | nil => simp [uniqueWithinRecord]
    | cons v rest ih => simp [uniqueWithinRecord, ih, List.nodup_cons]
  · simp [evaluateMulticolumn, allEqualLengths, scenario3Columns, toRecords, rowCount,
      recordAt, List.range, List.range.loop, evaluateCore, firstFault, uniqueCond,
      uniqueWithinRecord, condFails, excludeRow, Value.isMissing, List.filter,
      List.countP, List.countP.go]
    norm_num

/-- C4: with the Colorado reference set injected as a membership oracle that
contains the four example codes of the `valid_colorado_zip` column and none
of the `invalid_colorado_zip` column, every value of the first column
satisfies the condition (`unexpected_count = 0`, `success = true`) and every
value of the second fails it (`unexpected_count = 4`, `success = false`). -/
theorem colorado_zip_scenarios (coZips : List String)
    (h1 : "80001" ∈ coZips) (h2 : "80279" ∈ coZips) (h3 : "81003" ∈ coZips)
    (h4 : "81658" ∈ coZips) (h5 : "-10000" ∉ coZips) (h6 : "1234" ∉ coZips)
    (h7 : "99999" ∉ coZips) (h8 : "25487" ∉ coZips) :
    (∀ v ∈ validColoradoColumn, is_valid_colorado_zip coZips v = Except.ok true)
    ∧ (∀ v ∈ invalidColoradoColumn, is_valid_colorado_zip coZips v = Except.ok false)
    ∧ evaluateColumn (is_valid_colorado_zip coZips) 1 validColoradoColumn
      = Except.ok
          { element_count := 4
            missing_count := 0
            unexpected_count := 0
            unexpected_percent := 0
            unexpected_percent_nonmissing := 0
            unexpected_list := []
            success := true }
    ∧ evaluateColumn (is_valid_colorado_zip coZips) 1 invalidColoradoColumn
      = Except.ok
          { element_count := 4
            missing_count := 0
            unexpected_count := 4
            unexpected_percent := 100
            unexpected_percent_nonmissing := 100
            unexpected_list := invalidColoradoColumn
            success := false } := by
  have hvAll : ∀ v ∈ validColoradoColumn, is_valid_colorado_zip coZips v = Except.ok true := by
    intro v hv
    simp only [validColoradoColumn, List.mem_cons, List.not_mem_nil, or_false] at hv
    rcases hv with rfl | rfl | rfl | rfl
    · calc is_valid_colorado_zip coZips (Value.str "80001")
          = Except.ok (decide ("80001" ∈ coZips)) := rfl
        _ = Except.ok true := by rw [decide_eq_true h1]
    · calc is_valid_colorado_zip coZips (Value.str "80279")
          = Except.ok (decide ("80279" ∈ coZips)) := rfl
        _ = Except.ok true := by rw [decide_eq_true h2]
    · calc is_valid_colorado_zip coZips (Value.str "81003")
          = Except.ok (decide ("81003" ∈ coZips)) := rfl
        _ = Except.ok true := by rw [decide_eq_true h3]
    · calc is_valid_colorado_zip coZips (Value.str "81658")
          = Except.ok (decide ("81658" ∈ coZips)) := rfl
        _ = Except.ok true := by rw [decide_eq_true h4]
  have hiAll : ∀ v ∈ invalidColoradoColumn,
      is_valid_colorado_zip coZips v = Except.ok false := by
    intro v hv
    simp only [invalidColoradoColumn, List.mem_cons, List.not_mem_nil, or_false] at hv
    rcases hv with rfl | rfl | rfl | rfl
    · calc is_valid_colorado_zip coZips (Value.str "-10000")
          = Except.ok (decide ("-10000" ∈ coZips)) := rfl
        _ = Except.ok false := by rw [decide_eq_false h5]
    · calc is_valid_colorado_zip coZips (Value.str "1234")
          = Except.ok (decide ("1234" ∈ coZips)) := rfl
        _ = Except.ok false := by rw [decide_eq_false h6]
    · calc is_valid_colorado_zip coZips (Value.str "99999")
          = Except.ok (decide ("99999" ∈ coZips)) := rfl
        _ = Except.ok false := by rw [decide_eq_false h7]
    · calc is_valid_colorado_zip coZips (Value.str "25487")
          = Except.ok (decide ("25487" ∈ coZips)) := rfl
        _ = Except.ok false := by rw [decide_eq_false h8]
  refine ⟨hvAll, hiAll, ?_, ?_⟩
  · have hc := evaluateCore_congr Value.isMissing (is_valid_colorado_zip coZips)
      (fun _ => Except.ok true) 1 validColoradoColumn (fun v hv => hvAll v hv)
    rw [show evaluateColumn (is_valid_colorado_zip coZips) 1 validColoradoColumn
        = evaluateCore Value.isMissing (is_valid_colorado_zip coZips) 1 validColoradoColumn
      from rfl, hc]
    simp [evaluateCore, firstFault, condFails, Value.isMissing, validColoradoColumn,
      List.filter, List.countP, List.countP.go]
  · have hc := evaluateCore_congr Value.isMissing (is_valid_colorado_zip coZips)
      (fun _ => Except.ok false) 1 invalidColoradoColumn (fun v hv => hiAll v hv)
    rw [show evaluateColumn (is_valid_colorado_zip coZips) 1 invalidColoradoColumn
        = evaluateCore Value.isMissing (is_valid_colorado_zip coZips) 1 invalidColoradoColumn
      from rfl, hc]
    simp [evaluateCore, firstFault, condFails, Value.isMissing, invalidColoradoColumn,
      List.filter, List.countP, List.countP.go]

/-- C4 witness: the scenario statement evaluated at the concrete reference
set holding exactly the four valid example codes. -/
theorem colorado_zip_scenarios_witness :
    evaluateColumn (is_valid_colorado_zip ["80001", "80279", "81003", "81658"]) 1
      validColoradoColumn
      = Except.ok
          { element_count := 4
            missing_count := 0
            unexpected_count := 0
            unexpected_percent := 0
            unexpected_percent_nonmissing := 0
            unexpected_list := []
            success := true } :=
  (colorado_zip_scenarios ["80001", "80279", "81003", "81658"]
    (by decide) (by decide) (by decide) (by decide)
    (by decide) (by decide) (by decide) (by decide)).2.2.1

end GX
